import Mathlib

/-!
Verification of the NBA projection pipeline (ALTERAPICKS/nba).

The Python sources are shallowly embedded: machine floats are modelled as
rationals (`ℚ`), Python's `round(x, n)` as rounding half up on rationals
(no value in this development sits on a rounding tie, where Python's
banker's rounding would differ), dict-shaped records as structures, and
the external stat/injury/odds providers as explicit function or list
arguments.  File-backed state (the performance log CSV) is modelled as a
list of rows passed in and returned.
-/

/-! ## Python float rounding, modelled on ℚ -/

/-- Model of Python's `round(x, 1)` on rationals (half up; nothing proved
below sits on a tie). -/
def round1 (x : ℚ) : ℚ := (Int.floor (x * 10 + 1/2) : ℚ) / 10

/-- Model of Python's `round(x, 2)` on rationals (half up; nothing proved
below sits on a tie). -/
def round2 (x : ℚ) : ℚ := (Int.floor (x * 100 + 1/2) : ℚ) / 100

/-- A rational with at most two decimal places: `round(·, 2)` on such a value
is the identity. -/
def IsCenti (q : ℚ) : Prop := (q * 100).den = 1

instance (q : ℚ) : Decidable (IsCenti q) := by unfold IsCenti; infer_instance

theorem round2_centi (q : ℚ) (h : IsCenti q) : round2 q = q := by
  have h2 : ((q * 100).num : ℚ) = q * 100 := by
    exact_mod_cast (Rat.den_eq_one_iff (q * 100)).mp h
  have hfl : Int.floor (q * 100 + 1/2) = (q * 100).num := by
    rw [← h2, Int.floor_int_add]
    norm_num
  unfold round2
  rw [hfl, h2]
  ring

theorem centi_add (a b : ℚ) (ha : IsCenti a) (hb : IsCenti b) : IsCenti (a + b) := by
  have ha' : ((a * 100).num : ℚ) = a * 100 := by
    exact_mod_cast (Rat.den_eq_one_iff (a * 100)).mp ha
  have hb' : ((b * 100).num : ℚ) = b * 100 := by
    exact_mod_cast (Rat.den_eq_one_iff (b * 100)).mp hb
  have : ((a + b) * 100) = (((a * 100).num + (b * 100).num : ℤ) : ℚ) := by
    push_cast
    rw [ha', hb']
    ring
  unfold IsCenti
  rw [this]
  exact Rat.den_intCast _

theorem centi_zero : IsCenti 0 := by simp [IsCenti]

theorem centi_neg (a : ℚ) (ha : IsCenti a) : IsCenti (-a) := by
  have ha' : ((a * 100).num : ℚ) = a * 100 := by
    exact_mod_cast (Rat.den_eq_one_iff (a * 100)).mp ha
  have : (-a * 100) = ((-(a * 100).num : ℤ) : ℚ) := by
    push_cast
    rw [ha']
    ring
  unfold IsCenti
  rw [this]
  exact Rat.den_intCast _

/-! ## Python string helpers -/

/-- Python's substring test `pat in s`, on the character lists of the two
strings. -/
def listContainsSub : List Char → List Char → Bool
  | s@(_ :: rest), pat => List.isPrefixOf pat s || listContainsSub rest pat
  | [], pat => pat.isEmpty

/-- Python's `pat in s` for strings. -/
def containsSub (s pat : String) : Bool := listContainsSub s.data pat.data

/-- Python's `s.upper()` (ASCII letters, as all statuses here are ASCII). -/
def pyUpper (s : String) : String := String.mk (s.data.map Char.toUpper)

/-- Python's `s.isupper()`: at least one cased character, and no cased
character is lowercase (ASCII: cased = alphabetic). -/
def pyIsUpper (s : String) : Bool :=
  s.data.any (fun c => c.isAlpha) && s.data.all (fun c => !(c.isLower))

/-! ## injury_processor.py — InjuryProcessor

`STATUS_RULES` is the class's status conversion table (ESPN → model);
`process_injury_status` normalizes the raw ESPN status and looks it up,
defaulting to the ACTIVE rule. -/

/-- The `STATUS_RULES` dict: status → (model_status, apply_impact), `none`
for a key not in the table. -/
def STATUS_RULES (status : String) : Option (String × Bool) :=
  if status = "OUT" then some ("unavailable", true)
  else if status = "DOUBTFUL" then some ("unavailable", true)
  else if status = "QUESTIONABLE" then some ("available", false)
  else if status = "PROBABLE" then some ("available", true)
  else if status = "ACTIVE" then some ("available", true)
  else none

/-- The normalization prefix of `process_injury_status`: uppercase, then the
substring rules for OUT and DAY-TO-DAY. -/
def normalize_status (espn_status : String) : String :=
  let u := pyUpper espn_status
  if containsSub u "OUT" then "OUT"
  else if containsSub u "DAY-TO-DAY" || containsSub u "DAY TO DAY" then "QUESTIONABLE"
  else u

/-- `InjuryProcessor.process_injury_status`: returns
(model_status, apply_impact); an unrecognized status falls back to the
ACTIVE rule. -/
def process_injury_status (espn_status : String) : String × Bool :=
  (STATUS_RULES (normalize_status espn_status)).getD ("available", true)

/-- C2: for every raw injury-status string, after normalization (any
substring "OUT" maps to OUT; any substring "DAY-TO-DAY" or "DAY TO DAY"
maps to QUESTIONABLE; otherwise the uppercased string itself, matched
exactly), `process_injury_status` returns (unavailable, true) for OUT and
DOUBTFUL, (available, false) for QUESTIONABLE, and (available, true) for
PROBABLE, ACTIVE and every unrecognized status. -/
theorem c2_injury_status_rules (s : String) :
    (containsSub (pyUpper s) "OUT" = true → normalize_status s = "OUT") ∧
    (containsSub (pyUpper s) "OUT" = false →
      (containsSub (pyUpper s) "DAY-TO-DAY" || containsSub (pyUpper s) "DAY TO DAY") = true →
      normalize_status s = "QUESTIONABLE") ∧
    (containsSub (pyUpper s) "OUT" = false →
      (containsSub (pyUpper s) "DAY-TO-DAY" || containsSub (pyUpper s) "DAY TO DAY") = false →
      normalize_status s = pyUpper s) ∧
    process_injury_status s =
      (if normalize_status s = "OUT" ∨ normalize_status s = "DOUBTFUL" then
        ("unavailable", true)
      else if normalize_status s = "QUESTIONABLE" then ("available", false)
      else ("available", true)) := by
  refine ⟨?_, ?_, ?_, ?_⟩
  · intro h
    simp [normalize_status, h]
  · intro h h2
    simp [normalize_status, h, h2]
  · intro h h2
    simp [normalize_status, h, h2]
  · unfold process_injury_status STATUS_RULES
    split_ifs with h1 h2 h3 h4 h5 <;> simp_all

/-! ## player_stats_processor.py — PlayerStatsProcessor

Filters A–D, the three Vegas weighting modules, the tier-capped impact
calculation and `process_player`.  The display-only rounded copies of
the raw stats in the returned dict are omitted; the fields the pipeline
reads (tier, eligible, off/def impact, filter results) are all present. -/

def LEAGUE_AVG_OFF_RATING : ℚ := 115
def LEAGUE_AVG_DEF_RATING : ℚ := 115
def MIN_MINUTES_THRESHOLD : ℚ := 300
def MAX_USAGE_VOLATILITY : ℚ := 5
def MIN_ON_OFF_STRENGTH : ℚ := 1.5
def TIER_1_CAP : ℚ := 6
def TIER_2_CAP : ℚ := 3
def PLAYER_WEIGHT : ℚ := 0.7
def LEAGUE_AVG_WEIGHT : ℚ := 0.3

/-- Filter A: at least 300 season minutes. -/
def filter_a_minimum_minutes (minutes_played : ℚ) : Bool :=
  minutes_played ≥ MIN_MINUTES_THRESHOLD

/-- Filter B: usage volatility (|last-10 − season|) at most 5; returns
(eligible, volatility). -/
def filter_b_usage_stability (usage_rate_last_10 usage_rate_season : ℚ) : Bool × ℚ :=
  let usage_diff := |usage_rate_last_10 - usage_rate_season|
  (usage_diff ≤ MAX_USAGE_VOLATILITY, usage_diff)

/-- Filter C: |net_rating| strictly above 1.5. -/
def filter_c_onoff_strength (net_rating : ℚ) : Bool :=
  |net_rating| > MIN_ON_OFF_STRENGTH

/-- Filter D: tier classification. Under 300 minutes is Tier 4 outright;
otherwise tiers by usage, minutes per game and net rating. -/
def filter_d_tier_classification (usage_rate minutes_played net_rating games_played : ℚ) :
    String :=
  if minutes_played < 300 then "Tier 4"
  else
    let mpg := if games_played > 0 then minutes_played / games_played else 0
    if usage_rate ≥ 28 ∧ mpg ≥ 30 ∧ |net_rating| ≥ 2 then "Tier 1"
    else if usage_rate ≥ 22 ∧ mpg ≥ 26 ∧ |net_rating| ≥ 1 then "Tier 2"
    else if mpg ≥ 15 then "Tier 3"
    else "Tier 4"

/-- Vegas module 1: lineup-dependency weight from starter-overlap %. -/
def vegas_module_1_lineup_dependency (starter_overlap_pct : ℚ) : ℚ :=
  if starter_overlap_pct ≥ 60 then 1
  else if starter_overlap_pct ≥ 30 then 0.8
  else 0.5

/-- Vegas module 2: position-based defensive weight. -/
def vegas_module_2_defensive_role (position : String)
    (is_rim_protector is_poa_defender : Bool) : ℚ :=
  if is_rim_protector || position == "C" || position == "C-F" then 1.40
  else if is_poa_defender then 1.20
  else 1.00

/-- Vegas module 3: sample-size dampening from games played. -/
def vegas_module_3_sample_dampening (games_played : ℚ) : ℚ :=
  if games_played < 15 then 0.6 else 1

/-- Clamp `x` into `[-cap, cap]` the way the source writes it:
`max(min(x, cap), -cap)`. -/
def capTo (x cap : ℚ) : ℚ := max (min x cap) (-cap)

/-- `PlayerStatsProcessor.calculate_impact`: 70/30 regression toward the
league average 115, converted to a differential and capped by tier; any
tier other than Tier 1/2 yields (0, 0). -/
def calculate_impact (off_rating def_rating : ℚ) (tier : String) : ℚ × ℚ :=
  let regressed_off := PLAYER_WEIGHT * off_rating + LEAGUE_AVG_WEIGHT * LEAGUE_AVG_OFF_RATING
  let regressed_def := PLAYER_WEIGHT * def_rating + LEAGUE_AVG_WEIGHT * LEAGUE_AVG_DEF_RATING
  let off_impact := regressed_off - LEAGUE_AVG_OFF_RATING
  let def_impact := regressed_def - LEAGUE_AVG_DEF_RATING
  if tier = "Tier 1" then (capTo off_impact TIER_1_CAP, capTo def_impact TIER_1_CAP)
  else if tier = "Tier 2" then (capTo off_impact TIER_2_CAP, capTo def_impact TIER_2_CAP)
  else (0, 0)

/-- The stats dict handed to `process_player` (keys the function reads). -/
structure PlayerStatsIn where
  player_name : String
  games_played : ℚ
  minutes_played_season : ℚ
  minutes_per_game : ℚ
  usage_rate : ℚ
  usage_rate_last_10 : ℚ
  net_rating : ℚ
  off_rating_oncourt : ℚ
  def_rating_oncourt : ℚ
deriving DecidableEq

/-- The four filter booleans of the returned impact object. -/
structure FilterResults where
  min_minutes : Bool
  usage_stable : Bool
  strong_onoff : Bool
  tier_eligible : Bool
deriving DecidableEq

/-- The player impact object returned by `process_player` (pipeline-read
fields). -/
structure PlayerImpactOut where
  player_name : String
  team : String
  tier : String
  eligible : Bool
  off_impact : ℚ
  def_impact : ℚ
  filter_results : FilterResults
deriving DecidableEq

/-- `PlayerStatsProcessor.process_player`.  `position` empty models Python's
`None`/empty (falsy) position; `starter_overlap_pct = none` models a `None`
overlap, replaced inside the eligible branch by 100 or 50 on minutes per
game. -/
def process_player (player_stats : PlayerStatsIn) (team_name : String)
    (position : String) (starter_overlap_pct : Option ℚ)
    (is_rim_protector is_poa_defender : Bool) : PlayerImpactOut :=
  let pass_filter_a := filter_a_minimum_minutes player_stats.minutes_played_season
  let pass_filter_b :=
    (filter_b_usage_stability player_stats.usage_rate_last_10 player_stats.usage_rate).1
  let pass_filter_c := filter_c_onoff_strength player_stats.net_rating
  let tier := filter_d_tier_classification player_stats.usage_rate
    player_stats.minutes_played_season player_stats.net_rating player_stats.games_played
  let pass_filter_d := tier == "Tier 1" || tier == "Tier 2"
  let eligible := pass_filter_a && pass_filter_b && pass_filter_c && pass_filter_d
  let impacts : ℚ × ℚ :=
    if eligible then
      let base := calculate_impact player_stats.off_rating_oncourt
        player_stats.def_rating_oncourt tier
      let overlap := starter_overlap_pct.getD
        (if player_stats.minutes_per_game ≥ 25 then 100 else 50)
      let lineup_weight := vegas_module_1_lineup_dependency overlap
      let def_role_weight :=
        if position ≠ "" then
          vegas_module_2_defensive_role position is_rim_protector is_poa_defender
        else 1
      let sample_weight := vegas_module_3_sample_dampening player_stats.games_played
      (base.1 * lineup_weight * sample_weight,
       base.2 * lineup_weight * def_role_weight * sample_weight)
    else (0, 0)
  { player_name := player_stats.player_name
    team := team_name
    tier := tier
    eligible := eligible
    off_impact := round1 impacts.1
    def_impact := round1 impacts.2
    filter_results :=
      { min_minutes := pass_filter_a
        usage_stable := pass_filter_b
        strong_onoff := pass_filter_c
        tier_eligible := pass_filter_d } }

/-- C5: a player with under 300 season minutes is Tier 4 and ineligible,
whatever the other statistics. -/
theorem c5_under_300_minutes_tier4_ineligible (ps : PlayerStatsIn)
    (team position : String) (overlap : Option ℚ) (rim poa : Bool)
    (h : ps.minutes_played_season < 300) :
    filter_d_tier_classification ps.usage_rate ps.minutes_played_season
      ps.net_rating ps.games_played = "Tier 4" ∧
    (process_player ps team position overlap rim poa).tier = "Tier 4" ∧
    (process_player ps team position overlap rim poa).eligible = false := by
  have hd : filter_d_tier_classification ps.usage_rate ps.minutes_played_season
      ps.net_rating ps.games_played = "Tier 4" := by
    unfold filter_d_tier_classification
    rw [if_pos h]
  have ha : filter_a_minimum_minutes ps.minutes_played_season = false := by
    unfold filter_a_minimum_minutes MIN_MINUTES_THRESHOLD
    simp only [decide_eq_false_iff_not, not_le]
    exact h
  refine ⟨hd, ?_, ?_⟩
  · simp [process_player, hd]
  · simp [process_player, ha]

/-- Concrete stats line with under 300 minutes, for the C5 witness. -/
def psLowMin : PlayerStatsIn :=
  { player_name := "Low Minutes"
    games_played := 10
    minutes_played_season := 100
    minutes_per_game := 10
    usage_rate := 20
    usage_rate_last_10 := 20
    net_rating := 1/2
    off_rating_oncourt := 110
    def_rating_oncourt := 112 }

theorem c5_witness :
    psLowMin.minutes_played_season < 300 ∧
    (process_player psLowMin "Team" "G" (some 100) false false).eligible = false :=
  ⟨by norm_num [psLowMin],
   (c5_under_300_minutes_tier4_ineligible psLowMin "Team" "G" (some 100) false false
     (by norm_num [psLowMin])).2.2⟩

/-- C4: for an eligible Tier 1/Tier 2 player the pre-weighting impacts are
the 70/30-regressed differentials clamped to ±6 (Tier 1) or ±3 (Tier 2),
`calculate_impact` is (0, 0) on any other tier, and the cap is applied
exactly once, before the three multiplicative Vegas weights, never after
them. -/
theorem c4_impact_capped_once_before_weights (ps : PlayerStatsIn)
    (team position : String) (overlap : Option ℚ) (rim poa : Bool)
    (h : (process_player ps team position overlap rim poa).eligible = true) :
    (∀ off_r def_r : ℚ,
      calculate_impact off_r def_r "Tier 1" =
        (capTo (0.7 * off_r + 0.3 * 115 - 115) 6,
         capTo (0.7 * def_r + 0.3 * 115 - 115) 6) ∧
      calculate_impact off_r def_r "Tier 2" =
        (capTo (0.7 * off_r + 0.3 * 115 - 115) 3,
         capTo (0.7 * def_r + 0.3 * 115 - 115) 3) ∧
      (∀ t : String, ¬(t = "Tier 1" ∨ t = "Tier 2") →
        calculate_impact off_r def_r t = (0, 0))) ∧
    (process_player ps team position overlap rim poa).off_impact =
      round1 ((calculate_impact ps.off_rating_oncourt ps.def_rating_oncourt
          (filter_d_tier_classification ps.usage_rate ps.minutes_played_season
            ps.net_rating ps.games_played)).1
        * vegas_module_1_lineup_dependency
            (overlap.getD (if ps.minutes_per_game ≥ 25 then 100 else 50))
        * vegas_module_3_sample_dampening ps.games_played) ∧
    (process_player ps team position overlap rim poa).def_impact =
      round1 ((calculate_impact ps.off_rating_oncourt ps.def_rating_oncourt
          (filter_d_tier_classification ps.usage_rate ps.minutes_played_season
            ps.net_rating ps.games_played)).2
        * vegas_module_1_lineup_dependency
            (overlap.getD (if ps.minutes_per_game ≥ 25 then 100 else 50))
        * (if position ≠ "" then
            vegas_module_2_defensive_role position rim poa
          else 1)
        * vegas_module_3_sample_dampening ps.games_played) := by
  simp only [process_player] at h ⊢
  refine ⟨?_, ?_, ?_⟩
  · intro off_r def_r
    refine ⟨?_, ?_, ?_⟩
    · simp [calculate_impact, TIER_1_CAP, PLAYER_WEIGHT, LEAGUE_AVG_WEIGHT,
        LEAGUE_AVG_OFF_RATING, LEAGUE_AVG_DEF_RATING]
    · simp [calculate_impact, TIER_2_CAP, PLAYER_WEIGHT, LEAGUE_AVG_WEIGHT,
        LEAGUE_AVG_OFF_RATING, LEAGUE_AVG_DEF_RATING]
    · intro t ht
      push_neg at ht
      simp [calculate_impact, ht.1, ht.2]
  · rw [h]
    simp
  · rw [h]
    simp

/-- Concrete Tier 1 eligible stats line, for the C4 witness. -/
def psTier1 : PlayerStatsIn :=
  { player_name := "Star"
    games_played := 60
    minutes_played_season := 1920
    minutes_per_game := 32
    usage_rate := 30
    usage_rate_last_10 := 30
    net_rating := 3
    off_rating_oncourt := 120
    def_rating_oncourt := 110 }

theorem c4_witness :
    (process_player psTier1 "Team" "C" (some 100) true false).eligible = true ∧
    (process_player psTier1 "Team" "C" (some 100) true false).off_impact =
      round1 ((calculate_impact psTier1.off_rating_oncourt psTier1.def_rating_oncourt
          (filter_d_tier_classification psTier1.usage_rate psTier1.minutes_played_season
            psTier1.net_rating psTier1.games_played)).1
        * vegas_module_1_lineup_dependency
            ((some (100 : ℚ)).getD (if psTier1.minutes_per_game ≥ 25 then 100 else 50))
        * vegas_module_3_sample_dampening psTier1.games_played) :=
  ⟨by norm_num [process_player, filter_a_minimum_minutes, filter_b_usage_stability,
      filter_c_onoff_strength, filter_d_tier_classification, MIN_MINUTES_THRESHOLD,
      MAX_USAGE_VOLATILITY, MIN_ON_OFF_STRENGTH, psTier1],
   (c4_impact_capped_once_before_weights psTier1 "Team" "C" (some 100) true false
     (by norm_num [process_player, filter_a_minimum_minutes, filter_b_usage_stability,
        filter_c_onoff_strength, filter_d_tier_classification, MIN_MINUTES_THRESHOLD,
        MAX_USAGE_VOLATILITY, MIN_ON_OFF_STRENGTH, psTier1])).2.1⟩

/-! ## master_projection_engine.py — MasterProjectionEngine

Engine constants, the dashboard request wrapper, STEP 1 (baseline),
STEP 5 (injury/impact merge) and STEP 7 (game projection).  The stats
provider is modelled as a function from the `last_n_games` value actually
sent to the team's `Advanced` row. -/

def LEAGUE_AVG_PACE : ℚ := 98.5
def HOME_COURT_ADJ : ℚ := 1.8
def LAST5_WEIGHT : ℚ := 0.65
def SEASON_WEIGHT : ℚ := 0.35
def PACE_DAMPENING : ℚ := 0.6

/-- The `last_n_games` value `get_team_dashboard` actually sends: a falsy or
non-positive requested value is replaced by 5 before the request is made
(`if not last_n or last_n <= 0: last_n = 5`). -/
def get_team_dashboard_last_n (last_n : Int) : Int :=
  if last_n ≤ 0 then 5 else last_n

/-- One team's `Advanced` stats row as STEP 1 reads it. -/
structure AdvancedRow where
  OFF_RATING : ℚ
  DEF_RATING : ℚ
  PACE : ℚ

/-- The baseline dict returned by STEP 1. -/
structure Baseline where
  team_name : String
  off_rating_base : ℚ
  def_rating_base : ℚ
  pace_base : ℚ

/-- `step_1_load_baseline_stats`: requests the "season" table with
`last_n=0` and the last-5 table with `last_n=5` (both through
`get_team_dashboard`), blends them 0.65/0.35, dampens pace toward 98.5 and
rounds each baseline to 2 decimals. -/
def step_1_load_baseline_stats (team_name : String) (adv : Int → AdvancedRow) : Baseline :=
  let team_season := adv (get_team_dashboard_last_n 0)
  let team_last5 := adv (get_team_dashboard_last_n 5)
  let off_rtg_weighted :=
    team_last5.OFF_RATING * LAST5_WEIGHT + team_season.OFF_RATING * SEASON_WEIGHT
  let def_rtg_weighted :=
    team_last5.DEF_RATING * LAST5_WEIGHT + team_season.DEF_RATING * SEASON_WEIGHT
  let pace_weighted := team_last5.PACE * LAST5_WEIGHT + team_season.PACE * SEASON_WEIGHT
  let pace_dampened := LEAGUE_AVG_PACE + (pace_weighted - LEAGUE_AVG_PACE) * PACE_DAMPENING
  { team_name := team_name
    off_rating_base := round2 off_rtg_weighted
    def_rating_base := round2 def_rtg_weighted
    pace_base := round2 pace_dampened }

/-- C1 (code-bug evidence): `get_team_dashboard` coerces the season-to-date
request `last_n_games = 0` to 5, so STEP 1's "season" table is the last-5
table itself and the 0.65/0.35 blend degenerates to the last-5 value: the
baseline is NOT a blend of last-5 with season-to-date as claimed. -/
theorem c1_season_request_coerced_to_last5 (team : String) (adv : Int → AdvancedRow) :
    get_team_dashboard_last_n 0 = 5 ∧
    (step_1_load_baseline_stats team adv).off_rating_base = round2 (adv 5).OFF_RATING ∧
    (step_1_load_baseline_stats team adv).def_rating_base = round2 (adv 5).DEF_RATING ∧
    (step_1_load_baseline_stats team adv).pace_base =
      round2 (98.5 + ((adv 5).PACE - 98.5) * 0.6) := by
  have h0 : get_team_dashboard_last_n 0 = 5 := by norm_num [get_team_dashboard_last_n]
  have h5 : get_team_dashboard_last_n 5 = 5 := by norm_num [get_team_dashboard_last_n]
  refine ⟨h0, ?_, ?_, ?_⟩ <;>
  · simp only [step_1_load_baseline_stats, h0, h5, LAST5_WEIGHT, SEASON_WEIGHT,
      LEAGUE_AVG_PACE, PACE_DAMPENING]
    congr 1
    ring

/-- A team's adjusted rating record as STEP 7 reads it. -/
structure TeamAdjusted where
  team_name : String
  off_rating_final : ℚ
  def_rating_final : ℚ
  pace_final : ℚ

/-- The projection dict returned by STEP 7. -/
structure GameProjection where
  home_team : String
  away_team : String
  home_points : ℚ
  away_points : ℚ
  favorite_team : String
  favorite_spread : ℚ
  underdog_team : String
  underdog_spread : ℚ
  total : ℚ
  possessions : ℚ

/-- `step_7_project_game`: possessions from average pace, points from the
matchup efficiency formula with the 1.8 home-court bonus, favorite by the
strictly-higher unrounded score, each reported number rounded to 1
decimal. -/
def step_7_project_game (home_adjusted away_adjusted : TeamAdjusted) : GameProjection :=
  let avg_pace := (home_adjusted.pace_final + away_adjusted.pace_final) / 2
  let possessions := avg_pace
  let home_half := (home_adjusted.off_rating_final + away_adjusted.def_rating_final) / 2
  let home_points := home_half / 100 * possessions + HOME_COURT_ADJ
  let away_half := (away_adjusted.off_rating_final + home_adjusted.def_rating_final) / 2
  let away_points := away_half / 100 * possessions
  let total := round1 (home_points + away_points)
  let point_differential := |home_points - away_points|
  if home_points > away_points then
    { home_team := home_adjusted.team_name
      away_team := away_adjusted.team_name
      home_points := round1 home_points
      away_points := round1 away_points
      favorite_team := home_adjusted.team_name
      favorite_spread := -round1 point_differential
      underdog_team := away_adjusted.team_name
      underdog_spread := round1 point_differential
      total := total
      possessions := round1 possessions }
  else
    { home_team := home_adjusted.team_name
      away_team := away_adjusted.team_name
      home_points := round1 home_points
      away_points := round1 away_points
      favorite_team := away_adjusted.team_name
      favorite_spread := -round1 point_differential
      underdog_team := home_adjusted.team_name
      underdog_spread := round1 point_differential
      total := total
      possessions := round1 possessions }

/-- The unrounded home score STEP 7 computes before any rounding. -/
def hpRaw (home away : TeamAdjusted) : ℚ :=
  (home.off_rating_final + away.def_rating_final) / 2 / 100
    * ((home.pace_final + away.pace_final) / 2) + HOME_COURT_ADJ

/-- The unrounded away score STEP 7 computes before any rounding. -/
def apRaw (home away : TeamAdjusted) : ℚ :=
  (away.off_rating_final + home.def_rating_final) / 2 / 100
    * ((home.pace_final + away.pace_final) / 2)

/-- Concrete home team whose 2-decimal pace makes the rounding visible. -/
def homeCE : TeamAdjusted :=
  { team_name := "Home", off_rating_final := 110, def_rating_final := 112,
    pace_final := 9904/100 }

/-- Concrete away team whose 2-decimal pace makes the rounding visible. -/
def awayCE : TeamAdjusted :=
  { team_name := "Away", off_rating_final := 111, def_rating_final := 113,
    pace_final := 9904/100 }

/-- C6 counterexample: with both paces 99.04 the reported possessions are
round(99.04, 1) = 99.0, not the claimed exact average 99.04. -/
theorem c6_counterexample_possessions_rounded :
    (step_7_project_game homeCE awayCE).possessions ≠
      (homeCE.pace_final + awayCE.pace_final) / 2 := by
  norm_num [step_7_project_game, homeCE, awayCE, round1, HOME_COURT_ADJ]

/-- C6 (amended): STEP 7 reports each output rounded to 1 decimal — the
possessions, both scores, the total (rounded from the unrounded score sum)
and the spreads (rounded from the unrounded absolute score difference) —
and the favorite is the home team precisely when its unrounded score is
strictly higher, the away team otherwise. -/
theorem c6_projection_formulas_rounded (home away : TeamAdjusted) :
    (step_7_project_game home away).possessions =
      round1 ((home.pace_final + away.pace_final) / 2) ∧
    (step_7_project_game home away).home_points = round1 (hpRaw home away) ∧
    (step_7_project_game home away).away_points = round1 (apRaw home away) ∧
    (step_7_project_game home away).total = round1 (hpRaw home away + apRaw home away) ∧
    (step_7_project_game home away).favorite_team =
      (if hpRaw home away > apRaw home away then home.team_name else away.team_name) ∧
    (step_7_project_game home away).underdog_team =
      (if hpRaw home away > apRaw home away then away.team_name else home.team_name) ∧
    (step_7_project_game home away).favorite_spread =
      -round1 |hpRaw home away - apRaw home away| ∧
    (step_7_project_game home away).underdog_spread =
      round1 |hpRaw home away - apRaw home away| := by
  simp only [step_7_project_game, hpRaw, apRaw]
  split_ifs <;> simp_all

/-- C10: when the unrounded projected scores tie exactly, STEP 7 makes the
away team the favorite and the home team the underdog, both spreads 0. -/
theorem c10_tie_favors_away (home away : TeamAdjusted)
    (h : hpRaw home away = apRaw home away) :
    (step_7_project_game home away).favorite_team = away.team_name ∧
    (step_7_project_game home away).underdog_team = home.team_name ∧
    (step_7_project_game home away).favorite_spread = 0 ∧
    (step_7_project_game home away).underdog_spread = 0 := by
  simp only [hpRaw, apRaw] at h
  simp only [step_7_project_game]
  rw [if_neg (by rw [h]; exact lt_irrefl _)]
  have hz : round1 |(home.off_rating_final + away.def_rating_final) / 2 / 100
      * ((home.pace_final + away.pace_final) / 2) + HOME_COURT_ADJ
      - (away.off_rating_final + home.def_rating_final) / 2 / 100
      * ((home.pace_final + away.pace_final) / 2)| = 0 := by
    rw [h, sub_self, abs_zero]
    norm_num [round1]
  exact ⟨rfl, rfl, by rw [hz]; ring, hz⟩

/-- Concrete tied matchup for the C10 witness: home 101.8, away 101.8. -/
def homeTie : TeamAdjusted :=
  { team_name := "Home", off_rating_final := 100, def_rating_final := 100,
    pace_final := 100 }

/-- Concrete tied matchup for the C10 witness (away side). -/
def awayTie : TeamAdjusted :=
  { team_name := "Away", off_rating_final := 518/5, def_rating_final := 100,
    pace_final := 100 }

theorem c10_witness :
    hpRaw homeTie awayTie = apRaw homeTie awayTie ∧
    (step_7_project_game homeTie awayTie).favorite_team = awayTie.team_name :=
  ⟨by norm_num [hpRaw, apRaw, homeTie, awayTie, HOME_COURT_ADJ],
   (c10_tie_favors_away homeTie awayTie
     (by norm_num [hpRaw, apRaw, homeTie, awayTie, HOME_COURT_ADJ])).1⟩

/-- One entry of a team's injury report, as STEP 5 reads it. -/
structure InjuryEntry where
  player_name : String
  espn_status : String
  model_status : String
  apply_impact : Bool
deriving DecidableEq

/-- One entry of STEP 5's impact_breakdown list. -/
structure BreakdownEntry where
  player_name : String
  espn_status : String
  eligible : Bool
  off_impact : ℚ
  def_impact : ℚ
  off_adjustment : ℚ
  def_adjustment : ℚ
deriving DecidableEq

/-- The dict STEP 5 returns. -/
structure MergeResult where
  off_adjustment : ℚ
  def_adjustment : ℚ
  impact_breakdown : List BreakdownEntry

/-- The dict comprehension `{p['player_name']: p for p in player_impacts}`:
on duplicate names the later entry wins, so lookup finds the last match. -/
def impact_lookup (player_impacts : List PlayerImpactOut) (name : String) :
    Option PlayerImpactOut :=
  player_impacts.reverse.find? (fun p => p.player_name == name)

/-- The body of STEP 5's loop over the injury report, threading the two
accumulators and the breakdown list. -/
def step5_step (player_impacts : List PlayerImpactOut)
    (acc : ℚ × ℚ × List BreakdownEntry) (injury : InjuryEntry) :
    ℚ × ℚ × List BreakdownEntry :=
  match impact_lookup player_impacts injury.player_name with
  | some p =>
    if p.eligible && injury.model_status == "unavailable" then
      (acc.1 + -p.off_impact, acc.2.1 + -p.def_impact,
       acc.2.2 ++ [{ player_name := injury.player_name
                     espn_status := injury.espn_status
                     eligible := true
                     off_impact := p.off_impact
                     def_impact := p.def_impact
                     off_adjustment := -p.off_impact
                     def_adjustment := -p.def_impact }])
    else acc
  | none => acc

/-- `step_5_merge_injuries_and_impacts`: with the toggle off, zero
adjustments; otherwise the loop above, adjustments rounded to 2 decimals. -/
def step_5_merge_injuries_and_impacts (injury_report : List InjuryEntry)
    (player_impacts : List PlayerImpactOut) (injury_adjustment : Bool) : MergeResult :=
  if !injury_adjustment then
    { off_adjustment := 0, def_adjustment := 0, impact_breakdown := [] }
  else
    let r := injury_report.foldl (step5_step player_impacts) (0, 0, [])
    { off_adjustment := round2 r.1
      def_adjustment := round2 r.2.1
      impact_breakdown := r.2.2 }

/-- A single injury-report entry's contribution to the offensive
adjustment: −off_impact when the player is found in the impact list,
eligible and unavailable; zero otherwise. -/
def step5_contrib_off (player_impacts : List PlayerImpactOut) (injury : InjuryEntry) : ℚ :=
  match impact_lookup player_impacts injury.player_name with
  | some p =>
    if p.eligible = true ∧ injury.model_status = "unavailable" then -p.off_impact else 0
  | none => 0

/-- A single injury-report entry's contribution to the defensive
adjustment. -/
def step5_contrib_def (player_impacts : List PlayerImpactOut) (injury : InjuryEntry) : ℚ :=
  match impact_lookup player_impacts injury.player_name with
  | some p =>
    if p.eligible = true ∧ injury.model_status = "unavailable" then -p.def_impact else 0
  | none => 0

theorem step5_step_off (player_impacts : List PlayerImpactOut)
    (acc : ℚ × ℚ × List BreakdownEntry) (injury : InjuryEntry) :
    (step5_step player_impacts acc injury).1 =
      acc.1 + step5_contrib_off player_impacts injury := by
  unfold step5_step step5_contrib_off
  cases h : impact_lookup player_impacts injury.player_name with
  | none => simp
  | some p =>
    by_cases hp : p.eligible = true ∧ injury.model_status = "unavailable"
    · have hb : (p.eligible && (injury.model_status == "unavailable")) = true := by
        simp [hp.1, hp.2]
      simp [hb, hp]
    · have hb : ¬(p.eligible && (injury.model_status == "unavailable")) = true := by
        simp only [Bool.and_eq_true, beq_iff_eq]
        exact hp
      simp [hb, hp]

theorem step5_step_def (player_impacts : List PlayerImpactOut)
    (acc : ℚ × ℚ × List BreakdownEntry) (injury : InjuryEntry) :
    (step5_step player_impacts acc injury).2.1 =
      acc.2.1 + step5_contrib_def player_impacts injury := by
  unfold step5_step step5_contrib_def
  cases h : impact_lookup player_impacts injury.player_name with
  | none => simp
  | some p =>
    by_cases hp : p.eligible = true ∧ injury.model_status = "unavailable"
    · have hb : (p.eligible && (injury.model_status == "unavailable")) = true := by
        simp [hp.1, hp.2]
      simp [hb, hp]
    · have hb : ¬(p.eligible && (injury.model_status == "unavailable")) = true := by
        simp only [Bool.and_eq_true, beq_iff_eq]
        exact hp
      simp [hb, hp]

theorem step5_foldl_sums (player_impacts : List PlayerImpactOut)
    (l : List InjuryEntry) :
    ∀ acc : ℚ × ℚ × List BreakdownEntry,
      (l.foldl (step5_step player_impacts) acc).1 =
        acc.1 + (l.map (step5_contrib_off player_impacts)).sum ∧
      (l.foldl (step5_step player_impacts) acc).2.1 =
        acc.2.1 + (l.map (step5_contrib_def player_impacts)).sum := by
  induction l with
  | nil => intro acc; simp
  | cons i t ih =>
    intro acc
    simp only [List.foldl_cons, List.map_cons, List.sum_cons]
    constructor
    · rw [(ih _).1, step5_step_off]
      ring
    · rw [(ih _).2, step5_step_def]
      ring

theorem centi_sum (l : List ℚ) (h : ∀ q ∈ l, IsCenti q) : IsCenti l.sum := by
  induction l with
  | nil => simpa using centi_zero
  | cons a t ih =>
    rw [List.sum_cons]
    exact centi_add _ _ (h a (List.mem_cons_self a t))
      (ih fun q hq => h q (List.mem_cons_of_mem a hq))

theorem impact_lookup_mem (player_impacts : List PlayerImpactOut) (name : String)
    (p : PlayerImpactOut) (h : impact_lookup player_impacts name = some p) :
    p ∈ player_impacts := by
  unfold impact_lookup at h
  exact List.mem_reverse.mp (List.mem_of_find?_eq_some h)

theorem centi_contrib_off (player_impacts : List PlayerImpactOut)
    (h : ∀ p ∈ player_impacts, IsCenti p.off_impact ∧ IsCenti p.def_impact)
    (injury : InjuryEntry) : IsCenti (step5_contrib_off player_impacts injury) := by
  unfold step5_contrib_off
  cases hl : impact_lookup player_impacts injury.player_name with
  | none => exact centi_zero
  | some p =>
    by_cases hp : p.eligible = true ∧ injury.model_status = "unavailable"
    · simpa [hp] using centi_neg _ (h p (impact_lookup_mem _ _ _ hl)).1
    · simpa [hp] using centi_zero

theorem centi_contrib_def (player_impacts : List PlayerImpactOut)
    (h : ∀ p ∈ player_impacts, IsCenti p.off_impact ∧ IsCenti p.def_impact)
    (injury : InjuryEntry) : IsCenti (step5_contrib_def player_impacts injury) := by
  unfold step5_contrib_def
  cases hl : impact_lookup player_impacts injury.player_name with
  | none => exact centi_zero
  | some p =>
    by_cases hp : p.eligible = true ∧ injury.model_status = "unavailable"
    · simpa [hp] using centi_neg _ (h p (impact_lookup_mem _ _ _ hl)).2
    · simpa [hp] using centi_zero

/-- C3: with injury adjustment on, STEP 5's adjustments are exactly the
signed sums −off_impact/−def_impact over the injury-report entries whose
player is found in the impact list, eligible and unavailable; every other
entry (available, ineligible, or absent from the impact list) contributes
exactly zero.  The hypothesis — every stored impact has at most two decimal
places — holds for every impact the pipeline produces, since
`process_player` rounds impacts to one decimal. -/
theorem c3_merge_adjustments_signed_sums (injury_report : List InjuryEntry)
    (player_impacts : List PlayerImpactOut)
    (h : ∀ p ∈ player_impacts, IsCenti p.off_impact ∧ IsCenti p.def_impact) :
    (step_5_merge_injuries_and_impacts injury_report player_impacts true).off_adjustment =
      (injury_report.map (step5_contrib_off player_impacts)).sum ∧
    (step_5_merge_injuries_and_impacts injury_report player_impacts true).def_adjustment =
      (injury_report.map (step5_contrib_def player_impacts)).sum := by
  have hs := step5_foldl_sums player_impacts injury_report (0, 0, [])
  constructor
  · show round2 (injury_report.foldl (step5_step player_impacts) (0, 0, [])).1 = _
    rw [hs.1, zero_add]
    exact round2_centi _ (centi_sum _ (by
      intro q hq
      obtain ⟨i, _, rfl⟩ := List.mem_map.mp hq
      exact centi_contrib_off player_impacts h i))
  · show round2 (injury_report.foldl (step5_step player_impacts) (0, 0, [])).2.1 = _
    rw [hs.2, zero_add]
    exact round2_centi _ (centi_sum _ (by
      intro q hq
      obtain ⟨i, _, rfl⟩ := List.mem_map.mp hq
      exact centi_contrib_def player_impacts h i))

theorem centi_intCast (z : ℤ) : IsCenti (z : ℚ) := by
  unfold IsCenti
  have hz : ((z : ℚ) * 100) = ((z * 100 : ℤ) : ℚ) := by push_cast; ring
  rw [hz]
  exact Rat.den_intCast _

/-- Concrete eligible impact for the C3 witness. -/
def impactStar : PlayerImpactOut :=
  { player_name := "Star", team := "Team", tier := "Tier 1", eligible := true,
    off_impact := 3, def_impact := -2,
    filter_results := { min_minutes := true, usage_stable := true,
                        strong_onoff := true, tier_eligible := true } }

/-- Concrete ineligible impact for the C3 witness. -/
def impactBench : PlayerImpactOut :=
  { player_name := "Bench", team := "Team", tier := "Tier 3", eligible := false,
    off_impact := 0, def_impact := 0,
    filter_results := { min_minutes := true, usage_stable := true,
                        strong_onoff := true, tier_eligible := false } }

/-- Concrete eligible-but-available impact for the C3 witness. -/
def impactGuard : PlayerImpactOut :=
  { player_name := "Guard", team := "Team", tier := "Tier 2", eligible := true,
    off_impact := 1, def_impact := 2,
    filter_results := { min_minutes := true, usage_stable := true,
                        strong_onoff := true, tier_eligible := true } }

def impactsW : List PlayerImpactOut := [impactStar, impactBench, impactGuard]

/-- Concrete injury report for the C3 witness: one qualifying player, one
ineligible, one available, one absent from the impact list. -/
def reportW : List InjuryEntry :=
  [{ player_name := "Star", espn_status := "OUT",
     model_status := "unavailable", apply_impact := true },
   { player_name := "Bench", espn_status := "OUT",
     model_status := "unavailable", apply_impact := true },
   { player_name := "Guard", espn_status := "PROBABLE",
     model_status := "available", apply_impact := true },
   { player_name := "Ghost", espn_status := "OUT",
     model_status := "unavailable", apply_impact := true }]

theorem c3_witness :
    (∀ p ∈ impactsW, IsCenti p.off_impact ∧ IsCenti p.def_impact) ∧
    (step_5_merge_injuries_and_impacts reportW impactsW true).off_adjustment =
      (reportW.map (step5_contrib_off impactsW)).sum :=
  have hyp : ∀ p ∈ impactsW, IsCenti p.off_impact ∧ IsCenti p.def_impact := by
    intro p hp
    simp only [impactsW] at hp
    fin_cases hp
    · exact ⟨by simpa [impactStar] using centi_intCast 3,
        by simpa [impactStar] using centi_intCast (-2)⟩
    · exact ⟨by simpa [impactBench] using centi_intCast 0,
        by simpa [impactBench] using centi_intCast 0⟩
    · exact ⟨by simpa [impactGuard] using centi_intCast 1,
        by simpa [impactGuard] using centi_intCast 2⟩
  ⟨hyp, (c3_merge_adjustments_signed_sums reportW impactsW hyp).1⟩

/-! ## rest_adjustment_module.py and pace_adjustment_module.py

The rest module's external fetch (`get_rest_days`) is modelled by passing
its result — (rest_days, previous home/away location) per team — as an
argument; the pace module's constructor parameter `league_avg_pace` is an
explicit argument. -/

/-- The dict `apply_rest_adjustment` returns.  The disabled branch's dict
carries no `rest_diff` key and `None` rest days, hence the `Option`s. -/
structure RestResult where
  rest_adjustment_enabled : Bool
  rest_days_home : Option Int
  rest_days_away : Option Int
  rest_adj_home : ℚ
  rest_adj_away : ℚ
  rest_module_spread : ℚ
  baseline_spread : ℚ
  rest_diff : Option ℚ

/-- `RestAdjustmentModule.calculate_rest_adjustment`: base adjustment by
rest days, plus the ±0.25 location transition bonus at 4+ days. -/
def calculate_rest_adjustment (rest_days : Int)
    (previous_location current_location : String) : ℚ :=
  let rest_adj : ℚ :=
    if rest_days = 0 then -1.5
    else if rest_days = 1 then 0
    else if rest_days = 2 then 0.5
    else if rest_days ≥ 3 then 1
    else 0
  if rest_days ≥ 4 then
    if previous_location = "away" ∧ current_location = "home" then rest_adj + 0.25
    else if previous_location = "home" ∧ current_location = "away" then rest_adj - 0.25
    else rest_adj
  else rest_adj

/-- `RestAdjustmentModule.apply_rest_adjustment`; `rest_home`/`rest_away`
are the (rest_days, previous location) pairs `get_rest_days` fetched. -/
def apply_rest_adjustment (baseline_spread : ℚ) (rest_home rest_away : Int × String)
    (rest_adjustment_enabled : Bool) : RestResult :=
  if !rest_adjustment_enabled then
    { rest_adjustment_enabled := false
      rest_days_home := none
      rest_days_away := none
      rest_adj_home := 0
      rest_adj_away := 0
      rest_module_spread := baseline_spread
      baseline_spread := baseline_spread
      rest_diff := none }
  else
    let rest_adj_home := calculate_rest_adjustment rest_home.1 rest_home.2 "home"
    let rest_adj_away := calculate_rest_adjustment rest_away.1 rest_away.2 "away"
    let adjusted_spread := baseline_spread + (rest_adj_away - rest_adj_home)
    { rest_adjustment_enabled := true
      rest_days_home := some rest_home.1
      rest_days_away := some rest_away.1
      rest_adj_home := round2 rest_adj_home
      rest_adj_away := round2 rest_adj_away
      rest_module_spread := round1 adjusted_spread
      baseline_spread := baseline_spread
      rest_diff := some (round2 (rest_adj_away - rest_adj_home)) }

/-- The dict `apply_pace_adjustment` returns. -/
structure PaceResult where
  pace_adjustment_enabled : Bool
  pace_delta : ℚ
  pace_total_adj : ℚ
  baseline_total : ℚ
  pace_module_total : ℚ

/-- `PaceAdjustmentModule.calculate_pace_delta`. -/
def calculate_pace_delta (league_avg_pace team_a_pace team_b_pace : ℚ) : ℚ :=
  (team_a_pace + team_b_pace) - 2 * league_avg_pace

/-- `PaceAdjustmentModule.calculate_pace_adjustment`: the conservative step
function of the pace delta. -/
def calculate_pace_adjustment (pace_delta : ℚ) : ℚ :=
  if pace_delta > 4 then 4
  else if pace_delta > 2 then 2
  else if pace_delta < -4 then -4
  else if pace_delta < -2 then -2
  else 0

/-- `PaceAdjustmentModule.apply_pace_adjustment`. -/
def apply_pace_adjustment (league_avg_pace baseline_total home_pace away_pace : ℚ)
    (pace_adjustment_enabled : Bool) : PaceResult :=
  if !pace_adjustment_enabled then
    { pace_adjustment_enabled := false
      pace_delta := 0
      pace_total_adj := 0
      baseline_total := baseline_total
      pace_module_total := baseline_total }
  else
    let pace_delta := calculate_pace_delta league_avg_pace home_pace away_pace
    let pace_total_adj := calculate_pace_adjustment pace_delta
    let pace_module_total := baseline_total + pace_total_adj
    { pace_adjustment_enabled := true
      pace_delta := round2 pace_delta
      pace_total_adj := round1 pace_total_adj
      baseline_total := baseline_total
      pace_module_total := round1 pace_module_total }

/-- C7: with its toggle disabled, the rest module returns the baseline
spread exactly unchanged and the pace module returns the baseline total
exactly unchanged, whatever the other inputs. -/
theorem c7_disabled_modules_are_identity (baseline_spread : ℚ)
    (rest_home rest_away : Int × String)
    (league_avg_pace baseline_total home_pace away_pace : ℚ) :
    (apply_rest_adjustment baseline_spread rest_home rest_away
      false).rest_module_spread = baseline_spread ∧
    (apply_pace_adjustment league_avg_pace baseline_total home_pace away_pace
      false).pace_module_total = baseline_total :=
  ⟨rfl, rfl⟩

/-! ## model_performance/performance_logger.py — PerformanceLogger

A row dict's values are dynamically typed, modelled by `PyVal`; an absent
key is `none`.  The CSV file is modelled as a list of `CsvRow`s;
`log_performance` returns `Except`: an error models the raised
`ValueError`/`TypeError` (no write happens).  Python's `float(·)` check
also accepts numeric strings, but such a value then crashes `abs`/`round`
during row construction, still before any write — end-to-end a numeric
string behaves exactly like a rejected record, so the model folds that
case into the numeric check. -/

/-- A dynamically typed Python value as the logger sees it. -/
inductive PyVal where
  | pyStr (s : String)
  | pyNum (q : ℚ)
  | pyBool (b : Bool)
  | pyNone
deriving DecidableEq

/-- The row dict passed to `log_performance`; `none` models a missing key. -/
structure RowDict where
  date : Option PyVal
  game_id : Option PyVal
  pick_type : Option PyVal
  edge_points : Option PyVal
  model_line : Option PyVal
  market_line : Option PyVal
  result_correct : Option PyVal
  variance_flag : Option PyVal
  injury_flag : Option PyVal
  notes : Option PyVal
deriving DecidableEq

/-- One written CSV row (the 11 columns). -/
structure CsvRow where
  date : String
  game_id : String
  pick_type : String
  edge_points : ℚ
  model_line : ℚ
  market_line : ℚ
  result_correct : String
  confidence_band : String
  variance_flag : String
  injury_flag : String
  notes : String
deriving DecidableEq

def VALID_PICK_TYPES : List String :=
  ["spread_dog_value", "spread_fav_small", "spread_big_edge", "flipped_favorite",
   "total_over_value", "total_over_big_edge", "total_under_value", "total_under_big_edge"]

def VALID_VARIANCE_FLAGS : List String := ["normal", "high_variance"]

def VALID_INJURY_FLAGS : List String := ["none", "minor", "major"]

/-- A field value is a string belonging to the given set (a non-string value
is never `in` a set of strings). -/
def inStrSet (v : Option PyVal) (set : List String) : Bool :=
  match v with
  | some (PyVal.pyStr s) => set.contains s
  | _ => false

/-- A field value passes Python's `float(·)` and survives the later
`abs`/`round`: an actual number or a bool. -/
def pyFloatable (v : Option PyVal) : Bool :=
  match v with
  | some (PyVal.pyNum _) => true
  | some (PyVal.pyBool _) => true
  | _ => false

/-- A field value is a Python bool. -/
def isPyBool (v : Option PyVal) : Bool :=
  match v with
  | some (PyVal.pyBool _) => true
  | _ => false

/-- Python's `s.split(sep)` for a one-character separator, on character
lists. -/
def splitOnAt : List Char → Char → List (List Char)
  | [], _ => [[]]
  | c :: rest, sep =>
    match splitOnAt rest sep with
    | [] => [[]]
    | cur :: rs => if c = sep then [] :: cur :: rs else (c :: cur) :: rs

/-- Python's `s.split(sep)` for strings, one-character separator. -/
def pySplit (s : String) (sep : Char) : List String :=
  (splitOnAt s.data sep).map String.mk

/-- `PerformanceLogger._validate_game_id`: an `@` must be present, the split
must have exactly two parts, both uppercase and non-empty. -/
def validate_game_id (game_id : String) : Bool :=
  if !containsSub game_id "@" then false
  else
    let parts := pySplit game_id '@'
    if parts.length ≠ 2 then false
    else parts.all (fun part => pyIsUpper part && part.length > 0)

/-- The game_id field check as the code performs it: the value must be a
string of valid format (a non-string raises in `'@' not in game_id`). -/
def gameIdOk (v : Option PyVal) : Bool :=
  match v with
  | some (PyVal.pyStr s) => validate_game_id s
  | _ => false

/-- `PerformanceLogger._validate_row`: the first failing check's error, or
`none` when the record is valid.  Checks run in the source's order. -/
def validate_row (row : RowDict) : Option String :=
  if !row.date.isSome then some "Missing required field: date"
  else if !row.game_id.isSome then some "Missing required field: game_id"
  else if !row.pick_type.isSome then some "Missing required field: pick_type"
  else if !row.edge_points.isSome then some "Missing required field: edge_points"
  else if !row.model_line.isSome then some "Missing required field: model_line"
  else if !row.market_line.isSome then some "Missing required field: market_line"
  else if !row.result_correct.isSome then some "Missing required field: result_correct"
  else if !row.variance_flag.isSome then some "Missing required field: variance_flag"
  else if !row.injury_flag.isSome then some "Missing required field: injury_flag"
  else if !inStrSet row.pick_type VALID_PICK_TYPES then some "Invalid pick_type"
  else if !gameIdOk row.game_id then some "Invalid game_id format"
  else if !inStrSet row.variance_flag VALID_VARIANCE_FLAGS then some "Invalid variance_flag"
  else if !inStrSet row.injury_flag VALID_INJURY_FLAGS then some "Invalid injury_flag"
  else if !pyFloatable row.edge_points then some "edge_points must be numeric"
  else if !pyFloatable row.model_line then some "model_line must be numeric"
  else if !pyFloatable row.market_line then some "market_line must be numeric"
  else if !isPyBool row.result_correct then some "result_correct must be a boolean"
  else none

/-- String content of a field (defaulted; used only on validated rows). -/
def pyStrD (v : Option PyVal) : String :=
  match v with
  | some (PyVal.pyStr s) => s
  | _ => ""

/-- Numeric content of a field (Python treats bools as numbers). -/
def pyNumD (v : Option PyVal) : ℚ :=
  match v with
  | some (PyVal.pyNum q) => q
  | some (PyVal.pyBool b) => if b then 1 else 0
  | _ => 0

/-- Bool content of a field. -/
def pyBoolD (v : Option PyVal) : Bool :=
  match v with
  | some (PyVal.pyBool b) => b
  | _ => false

/-- `PerformanceLogger._calculate_confidence_band`. -/
def calculate_confidence_band (edge_points : ℚ) : String :=
  let edge_abs := |edge_points|
  if edge_abs < 2 then "low"
  else if edge_abs < 4 then "medium"
  else if edge_abs < 6 then "high"
  else "elite"

/-- The CSV row `log_performance` writes for a validated record. -/
def mkCsvRow (row : RowDict) : CsvRow :=
  { date := pyStrD row.date
    game_id := pyStrD row.game_id
    pick_type := pyStrD row.pick_type
    edge_points := round2 (pyNumD row.edge_points)
    model_line := round2 (pyNumD row.model_line)
    market_line := round2 (pyNumD row.market_line)
    result_correct := if pyBoolD row.result_correct then "TRUE" else "FALSE"
    confidence_band := calculate_confidence_band (pyNumD row.edge_points)
    variance_flag := pyStrD row.variance_flag
    injury_flag := pyStrD row.injury_flag
    notes := pyStrD row.notes }

/-- `PerformanceLogger.log_performance` on the file modelled as a row list:
validation runs before any write; an error means the file is untouched,
success appends exactly one row. -/
def log_performance (row : RowDict) (log : List CsvRow) : Except String (List CsvRow) :=
  match validate_row row with
  | some err => Except.error err
  | none => Except.ok (log ++ [mkCsvRow row])

/-- The record-validity predicate the code enforces: the claim's listed
conditions plus the game_id format check. -/
def row_valid (row : RowDict) : Bool :=
  row.date.isSome && row.game_id.isSome && row.pick_type.isSome &&
  row.edge_points.isSome && row.model_line.isSome && row.market_line.isSome &&
  row.result_correct.isSome && row.variance_flag.isSome && row.injury_flag.isSome &&
  inStrSet row.pick_type VALID_PICK_TYPES && gameIdOk row.game_id &&
  inStrSet row.variance_flag VALID_VARIANCE_FLAGS &&
  inStrSet row.injury_flag VALID_INJURY_FLAGS &&
  pyFloatable row.edge_points && pyFloatable row.model_line &&
  pyFloatable row.market_line && isPyBool row.result_correct

/-- The validity conditions the claim lists (everything in `row_valid`
except the game_id format check). -/
def row_valid_claimed (row : RowDict) : Bool :=
  row.date.isSome && row.game_id.isSome && row.pick_type.isSome &&
  row.edge_points.isSome && row.model_line.isSome && row.market_line.isSome &&
  row.result_correct.isSome && row.variance_flag.isSome && row.injury_flag.isSome &&
  inStrSet row.pick_type VALID_PICK_TYPES &&
  inStrSet row.variance_flag VALID_VARIANCE_FLAGS &&
  inStrSet row.injury_flag VALID_INJURY_FLAGS &&
  pyFloatable row.edge_points && pyFloatable row.model_line &&
  pyFloatable row.market_line && isPyBool row.result_correct

/-- The resulting file content: the new list on success, the old file
untouched on an exception. -/
def exceptLog (res : Except String (List CsvRow)) (old : List CsvRow) : List CsvRow :=
  match res with
  | Except.ok l => l
  | Except.error _ => old

/-- Whether the call returned without raising. -/
def exceptOk (res : Except String (List CsvRow)) : Bool :=
  match res with
  | Except.ok _ => true
  | Except.error _ => false

theorem validate_row_none_iff (row : RowDict) :
    validate_row row = none ↔ row_valid row = true := by
  unfold validate_row row_valid
  cases h1 : row.date.isSome with
  | false => simp [h1]
  | true =>
    cases h2 : row.game_id.isSome with
    | false => simp [h1, h2]
    | true =>
      cases h3 : row.pick_type.isSome with
      | false => simp [h1, h2, h3]
      | true =>
        cases h4 : row.edge_points.isSome with
        | false => simp [h1, h2, h3, h4]
        | true =>
          cases h5 : row.model_line.isSome with
          | false => simp [h1, h2, h3, h4, h5]
          | true =>
            cases h6 : row.market_line.isSome with
            | false => simp [h1, h2, h3, h4, h5, h6]
            | true =>
              cases h7 : row.result_correct.isSome with
              | false => simp [h1, h2, h3, h4, h5, h6, h7]
              | true =>
                cases h8 : row.variance_flag.isSome with
                | false => simp [h1, h2, h3, h4, h5, h6, h7, h8]
                | true =>
                  cases h9 : row.injury_flag.isSome with
                  | false => simp [h1, h2, h3, h4, h5, h6, h7, h8, h9]
                  | true =>
                    cases h10 : inStrSet row.pick_type VALID_PICK_TYPES with
                    | false => simp [h1, h2, h3, h4, h5, h6, h7, h8, h9, h10]
                    | true =>
                      cases h11 : gameIdOk row.game_id with
                      | false => simp [h1, h2, h3, h4, h5, h6, h7, h8, h9, h10, h11]
                      | true =>
                        cases h12 : inStrSet row.variance_flag VALID_VARIANCE_FLAGS with
                        | false => simp [h1, h2, h3, h4, h5, h6, h7, h8, h9, h10, h11, h12]
                        | true =>
                          cases h13 : inStrSet row.injury_flag VALID_INJURY_FLAGS with
                          | false => simp [h1, h2, h3, h4, h5, h6, h7, h8, h9, h10, h11, h12, h13]
                          | true =>
                            cases h14 : pyFloatable row.edge_points with
                            | false => simp [h1, h2, h3, h4, h5, h6, h7, h8, h9, h10, h11, h12, h13, h14]
                            | true =>
                              cases h15 : pyFloatable row.model_line with
                              | false => simp [h1, h2, h3, h4, h5, h6, h7, h8, h9, h10, h11, h12, h13, h14, h15]
                              | true =>
                                cases h16 : pyFloatable row.market_line with
                                | false => simp [h1, h2, h3, h4, h5, h6, h7, h8, h9, h10, h11, h12, h13, h14, h15, h16]
                                | true =>
                                  cases h17 : isPyBool row.result_correct with
                                  | false => simp [h1, h2, h3, h4, h5, h6, h7, h8, h9, h10, h11, h12, h13, h14, h15, h16, h17]
                                  | true =>
                                    simp [h1, h2, h3, h4, h5, h6, h7, h8, h9, h10, h11, h12, h13, h14, h15, h16, h17]

/-- C9 (amended): `log_performance` validates before any write — it raises
exactly when a check of `row_valid` fails (the claim's listed conditions
plus the game_id format check), leaving the file completely unchanged; on
a valid record it appends exactly one complete row and overwrites
nothing. -/
theorem c9_validation_gates_single_append (row : RowDict) (log : List CsvRow) :
    exceptOk (log_performance row log) = row_valid row ∧
    exceptLog (log_performance row log) log =
      (if row_valid row = true then log ++ [mkCsvRow row] else log) := by
  cases hv : validate_row row with
  | some e =>
    have hrv : row_valid row = false := by
      cases hcase : row_valid row
      · rfl
      · have hnone := (validate_row_none_iff row).mpr hcase
        rw [hv] at hnone
        exact Option.noConfusion hnone
    refine ⟨?_, ?_⟩
    · simp [log_performance, hv, exceptOk, hrv]
    · simp [log_performance, hv, exceptLog, hrv]
  | none =>
    have hrv : row_valid row = true := (validate_row_none_iff row).mp hv
    refine ⟨?_, ?_⟩
    · simp [log_performance, hv, exceptOk, hrv]
    · simp [log_performance, hv, exceptLog, hrv]

/-- Record that satisfies every condition C9 lists, with a lowercase
game_id. -/
def rowBadGameId : RowDict :=
  { date := some (PyVal.pyStr "2025-12-11")
    game_id := some (PyVal.pyStr "bos@mil")
    pick_type := some (PyVal.pyStr "spread_big_edge")
    edge_points := some (PyVal.pyNum 4)
    model_line := some (PyVal.pyNum (-7))
    market_line := some (PyVal.pyNum (-2))
    result_correct := some (PyVal.pyBool true)
    variance_flag := some (PyVal.pyStr "normal")
    injury_flag := some (PyVal.pyStr "none")
    notes := some (PyVal.pyStr "test") }

/-- C9 counterexample: this record meets every condition the claim lists
(all fields present, valid enums, numeric lines, boolean result), so per
the claim it would be appended — but the code also validates the game_id
format, rejects "bos@mil" (lowercase) with a ValueError, and appends
nothing. -/
theorem c9_counterexample_lowercase_game_id :
    row_valid_claimed rowBadGameId = true ∧
    exceptOk (log_performance rowBadGameId []) = false ∧
    exceptLog (log_performance rowBadGameId []) [] = [] := by
  refine ⟨by decide, by decide, by decide⟩

/-! ## model_performance/outcome_fetcher.py — OutcomeFetcher

`update_performance_log`'s duplicate suppression: the CSV is the list of
rows, `get_existing_entries` the set of its (date, game_id, pick_type)
keys (kept as a list, membership is what matters), and the run walks the
candidate rows built from games/predictions/odds, appending a row only
when its key is absent and recording the key. -/

/-- The (date, game_id, pick_type) key of a performance-log row. -/
def rowKey (r : CsvRow) : String × String × String := (r.date, r.game_id, r.pick_type)

/-- `OutcomeFetcher.get_existing_entries`: the keys already in the log. -/
def get_existing_entries (log : List CsvRow) : List (String × String × String) :=
  log.map rowKey

/-- The logging loop of `update_performance_log` over the evaluated rows:
skip a row whose key is already known, otherwise append it and record its
key. -/
def update_run : List CsvRow → List (String × String × String) → List CsvRow →
    List CsvRow × List (String × String × String)
  | log, existing, [] => (log, existing)
  | log, existing, r :: rs =>
    if rowKey r ∈ existing then update_run log existing rs
    else update_run (log ++ [r]) (rowKey r :: existing) rs

/-- `OutcomeFetcher.update_performance_log` on the log modelled as a row
list: seeds the known keys from the existing log, then runs the loop over
the candidate rows (the rows `evaluate_game` builds from the given games,
predictions and odds). -/
def update_performance_log (log rows : List CsvRow) : List CsvRow :=
  (update_run log (get_existing_entries log) rows).1

theorem update_run_mono (rows : List CsvRow) :
    ∀ (log : List CsvRow) (existing : List (String × String × String)) (k),
      k ∈ existing → k ∈ (update_run log existing rows).2 := by
  induction rows with
  | nil => intro log existing k hk; exact hk
  | cons r rs ih =>
    intro log existing k hk
    unfold update_run
    by_cases hr : rowKey r ∈ existing
    · rw [if_pos hr]; exact ih log existing k hk
    · rw [if_neg hr]; exact ih _ _ k (List.mem_cons_of_mem _ hk)

theorem update_run_mem_key (rows : List CsvRow) :
    ∀ (log : List CsvRow) (existing) (r : CsvRow), r ∈ rows →
      rowKey r ∈ (update_run log existing rows).2 := by
  induction rows with
  | nil => intro log existing r hr; exact absurd hr (List.not_mem_nil r)
  | cons r' rs ih =>
    intro log existing r hr
    unfold update_run
    by_cases hk : rowKey r' ∈ existing
    · rw [if_pos hk]
      rcases List.mem_cons.mp hr with rfl | hr'
      · exact update_run_mono rs log existing _ hk
      · exact ih log existing r hr'
    · rw [if_neg hk]
      rcases List.mem_cons.mp hr with rfl | hr'
      · exact update_run_mono rs _ _ _ (List.mem_cons_self _ _)
      · exact ih _ _ r hr'

theorem update_run_skip (rows : List CsvRow) :
    ∀ (log : List CsvRow) (existing),
      (∀ r ∈ rows, rowKey r ∈ existing) → update_run log existing rows = (log, existing) := by
  induction rows with
  | nil => intro log existing _; rfl
  | cons r rs ih =>
    intro log existing hall
    unfold update_run
    rw [if_pos (hall r (List.mem_cons_self r rs))]
    exact ih log existing (fun x hx => hall x (List.mem_cons_of_mem r hx))

theorem update_run_sync (rows : List CsvRow) :
    ∀ (log : List CsvRow) (existing),
      (∀ k, k ∈ existing ↔ k ∈ log.map rowKey) →
      ∀ k, k ∈ (update_run log existing rows).2 ↔
        k ∈ (update_run log existing rows).1.map rowKey := by
  induction rows with
  | nil => intro log existing hsync k; exact hsync k
  | cons r rs ih =>
    intro log existing hsync k
    unfold update_run
    by_cases hk : rowKey r ∈ existing
    · rw [if_pos hk]; exact ih log existing hsync k
    · rw [if_neg hk]
      refine ih _ _ (fun k' => ?_) k
      constructor
      · intro hk'
        rcases List.mem_cons.mp hk' with rfl | hk''
        · simp
        · simp only [List.map_append, List.mem_append]
          exact Or.inl ((hsync k').mp hk'')
      · intro hk'
        simp only [List.map_append, List.mem_append] at hk'
        rcases hk' with hk'' | hk''
        · exact List.mem_cons_of_mem _ ((hsync k').mpr hk'')
        · simp only [List.map_cons, List.map_nil, List.mem_singleton] at hk''
          rw [hk'']
          exact List.mem_cons_self _ _

theorem update_run_nodup (rows : List CsvRow) :
    ∀ (log : List CsvRow) (existing),
      (log.map rowKey).Nodup →
      (∀ k, k ∈ existing ↔ k ∈ log.map rowKey) →
      ((update_run log existing rows).1.map rowKey).Nodup := by
  induction rows with
  | nil => intro log existing h _; exact h
  | cons r rs ih =>
    intro log existing h hsync
    unfold update_run
    by_cases hk : rowKey r ∈ existing
    · rw [if_pos hk]; exact ih log existing h hsync
    · rw [if_neg hk]
      refine ih _ _ ?_ ?_
      · simp only [List.map_append, List.map_cons, List.map_nil]
        refine List.Nodup.append h (List.nodup_singleton _) ?_
        intro k hk1 hk2
        simp only [List.mem_singleton] at hk2
        subst hk2
        exact hk ((hsync _).mpr hk1)
      · intro k'
        constructor
        · intro hk'
          rcases List.mem_cons.mp hk' with rfl | hk''
          · simp
          · simp only [List.map_append, List.mem_append]
            exact Or.inl ((hsync k').mp hk'')
        · intro hk'
          simp only [List.map_append, List.mem_append] at hk'
          rcases hk' with hk'' | hk''
          · exact List.mem_cons_of_mem _ ((hsync k').mpr hk'')
          · simp only [List.map_cons, List.map_nil, List.mem_singleton] at hk''
            rw [hk'']
            exact List.mem_cons_self _ _

/-- C8: starting from a log whose (date, game_id, pick_type) keys are
unique, one run of `update_performance_log` never appends a row whose key
is already present (key-uniqueness is preserved), and a second run over
the same candidate rows appends nothing at all. -/
theorem c8_no_duplicate_keys_and_rerun_stable (log rows : List CsvRow)
    (h : (log.map rowKey).Nodup) :
    ((update_performance_log log rows).map rowKey).Nodup ∧
    update_performance_log (update_performance_log log rows) rows =
      update_performance_log log rows := by
  have hsync0 : ∀ k, k ∈ get_existing_entries log ↔ k ∈ log.map rowKey :=
    fun _ => Iff.rfl
  constructor
  · exact update_run_nodup rows log _ h hsync0
  · have hmem : ∀ r ∈ rows,
        rowKey r ∈ (update_run log (get_existing_entries log) rows).2 :=
      fun r hr => update_run_mem_key rows log _ r hr
    have hsync : ∀ k, k ∈ (update_run log (get_existing_entries log) rows).2 ↔
        k ∈ (update_run log (get_existing_entries log) rows).1.map rowKey :=
      update_run_sync rows log _ hsync0
    have hall : ∀ r ∈ rows,
        rowKey r ∈ get_existing_entries (update_run log (get_existing_entries log) rows).1 :=
      fun r hr => (hsync _).mp (hmem r hr)
    unfold update_performance_log
    rw [update_run_skip rows _ _ hall]

/-- Existing log row for the C8 witness. -/
def logRow1 : CsvRow :=
  { date := "2025-12-10", game_id := "BOS@MIL", pick_type := "spread_big_edge",
    edge_points := 4, model_line := -7, market_line := -2, result_correct := "TRUE",
    confidence_band := "elite", variance_flag := "normal", injury_flag := "major",
    notes := "prior" }

/-- Candidate row sharing `logRow1`'s key (must be skipped). -/
def rowDup : CsvRow :=
  { date := "2025-12-10", game_id := "BOS@MIL", pick_type := "spread_big_edge",
    edge_points := 5, model_line := -8, market_line := -3, result_correct := "FALSE",
    confidence_band := "high", variance_flag := "normal", injury_flag := "none",
    notes := "rerun" }

/-- Fresh candidate row for the C8 witness. -/
def rowNew : CsvRow :=
  { date := "2025-12-10", game_id := "GSW@LAL", pick_type := "total_over_value",
    edge_points := 3, model_line := 231, market_line := 228, result_correct := "TRUE",
    confidence_band := "medium", variance_flag := "high_variance", injury_flag := "none",
    notes := "new" }

/-- Candidate row sharing `rowNew`'s key (only one may land). -/
def rowNewAgain : CsvRow :=
  { date := "2025-12-10", game_id := "GSW@LAL", pick_type := "total_over_value",
    edge_points := 3, model_line := 231, market_line := 228, result_correct := "TRUE",
    confidence_band := "medium", variance_flag := "high_variance", injury_flag := "none",
    notes := "again" }

def logW : List CsvRow := [logRow1]

def rowsW8 : List CsvRow := [rowDup, rowNew, rowNewAgain]

theorem c8_witness :
    ((logW.map rowKey).Nodup) ∧
    update_performance_log (update_performance_log logW rowsW8) rowsW8 =
      update_performance_log logW rowsW8 :=
  have hn : (logW.map rowKey).Nodup := by
    simp [logW, logRow1, rowKey]
  ⟨hn, (c8_no_duplicate_keys_and_rerun_stable logW rowsW8 hn).2⟩
